import Mathlib

/-!
Verification of the resilient batch video pipeline (src/main.py): a shallow
embedding of the polling/backoff engine (`VideoGenerator.generate`), the
per-item batch loop of `run_pipeline`, the upload metadata construction of
`YouTubeUploader.upload`, and the error-row construction of
`SheetsLogger.log_error`, together with theorems settling the spec claims.
-/

set_option maxHeartbeats 1000000
set_option maxRecDepth 8000

/-- Outcome of one `requests.post` call in `VideoGenerator.generate`:
either an HTTP response with a status code, or a raised request exception
(timeouts included), which the source handles in its `except` clause. -/
inductive PollResult where
  | status (code : Nat)
  | exn (msg : String)
deriving DecidableEq, Repr

/-- Observable result of `VideoGenerator.generate`: how many HTTP requests
were made, the sequence of sleep durations (in seconds, in order), and
whether a video file was written and its path returned (`true`) or the
function returned `None` after exhausting retries (`false`). -/
structure GenResult where
  calls : Nat
  sleeps : List Nat
  video : Bool
deriving DecidableEq, Repr

/-- The `while retry_count < max_retries` loop of `VideoGenerator.generate`
(src/main.py lines 184-226).  `oracle n` is the outcome of the (n+1)-th
`requests.post` call.  Branches, in source order:
  * status 503: `retry_count += 1; time.sleep(RETRY_WAIT * retry_count); continue`
  * status 200: write the file and return the path (modelled `video := true`)
  * any other status: `retry_count += 1; time.sleep(RETRY_WAIT)`
  * raised exception: `retry_count += 1; time.sleep(RETRY_WAIT)`
After the loop the source returns `None` (modelled `video := false`). -/
def generateGo (oracle : Nat → PollResult) (maxRetries w : Nat)
    (retryCount calls : Nat) (sleeps : List Nat) : GenResult :=
  if _h : retryCount < maxRetries then
    match oracle calls with
    | PollResult.status code =>
      if code = 503 then
        generateGo oracle maxRetries w (retryCount + 1) (calls + 1)
          (sleeps ++ [w * (retryCount + 1)])
      else if code = 200 then
        { calls := calls + 1, sleeps := sleeps, video := true }
      else
        generateGo oracle maxRetries w (retryCount + 1) (calls + 1) (sleeps ++ [w])
    | PollResult.exn _ =>
        generateGo oracle maxRetries w (retryCount + 1) (calls + 1) (sleeps ++ [w])
  else
    { calls := calls, sleeps := sleeps, video := false }
termination_by maxRetries - retryCount
decreasing_by all_goals omega

/-- Entry point `VideoGenerator.generate prompt max_retries`: the loop starts with
`retry_count = 0`, no calls made and nothing slept. -/
def generate (oracle : Nat → PollResult) (maxRetries w : Nat) : GenResult :=
  generateGo oracle maxRetries w 0 0 []

/-- A remote job that is never ready: every poll answers HTTP 503. -/
def constNotReady : Nat → PollResult := fun _ => PollResult.status 503

/-- A remote job that answers HTTP 503 for the first `k` polls and HTTP 200
afterwards. -/
def oracleReadyAfter (k : Nat) : Nat → PollResult :=
  fun n => if n < k then PollResult.status 503 else PollResult.status 200

/-- A remote job whose every poll yields HTTP 500 (a non-503, non-200 error). -/
def constServerError : Nat → PollResult := fun _ => PollResult.status 500

/-- Classifier for the two source branches that are neither the 503
cold-start branch nor the 200 success branch: any other status code
(src/main.py line 216) or a raised request exception (line 220). -/
def isFailedOutcome : PollResult → Bool
  | PollResult.status code => !(code == 503) && !(code == 200)
  | PollResult.exn _ => true

/-- Running the loop through `d` consecutive 503 answers starting at
`retryCount = calls = r` advances both counters by `d` and appends the
linearly growing sleeps `w*(r+1), ..., w*(r+d)`. -/
lemma generateGo_notReady_run (oracle : Nat → PollResult) (m w : Nat)
    (d : Nat) : ∀ (r : Nat) (s : List Nat), r + d ≤ m →
    (∀ n, r ≤ n → n < r + d → oracle n = PollResult.status 503) →
    generateGo oracle m w r r s =
      generateGo oracle m w (r + d) (r + d)
        (s ++ (List.range d).map (fun j => w * (r + 1 + j))) := by
  induction d with
  | zero => intro r s _ _; simp
  | succ d ih =>
    intro r s hle h503
    have hr : r < m := by omega
    have ho : oracle r = PollResult.status 503 := h503 r (Nat.le_refl r) (by omega)
    rw [generateGo, dif_pos hr, ho]
    show generateGo oracle m w (r + 1) (r + 1) (s ++ [w * (r + 1)]) = _
    rw [ih (r + 1) (s ++ [w * (r + 1)]) (by omega)
        (fun n hn1 hn2 => h503 n (by omega) (by omega))]
    have hfun : ∀ j, w * (r + 1 + 1 + j) = w * (r + 1 + (j + 1)) := by
      intro j
      exact congrArg (fun t => w * t) (by omega)
    have hlist : (s ++ [w * (r + 1)]) ++ (List.range d).map (fun j => w * (r + 1 + 1 + j))
        = s ++ (List.range (d + 1)).map (fun j => w * (r + 1 + j)) := by
      rw [List.range_succ_eq_map, List.map_cons, List.map_map, List.append_assoc]
      have : (fun j => w * (r + 1 + 1 + j)) = ((fun j => w * (r + 1 + j)) ∘ Nat.succ) := by
        funext j
        simpa [Function.comp] using hfun j
      simp [this]
    rw [show r + 1 + d = r + (d + 1) by omega, hlist]

/-- The loop makes at most `m - retryCount` further calls. -/
lemma generateGo_calls_le (oracle : Nat → PollResult) (m w : Nat) :
    ∀ (fuel r c : Nat) (s : List Nat), m - r ≤ fuel →
    (generateGo oracle m w r c s).calls ≤ c + (m - r) := by
  intro fuel
  induction fuel with
  | zero =>
    intro r c s hf
    rw [generateGo, dif_neg (by omega)]
    show c ≤ c + (m - r)
    omega
  | succ fuel ih =>
    intro r c s hf
    by_cases hr : r < m
    · rw [generateGo, dif_pos hr]
      cases ho : oracle c with
      | status code =>
        show (if code = 503 then
                generateGo oracle m w (r + 1) (c + 1) (s ++ [w * (r + 1)])
              else if code = 200 then
                ({ calls := c + 1, sleeps := s, video := true } : GenResult)
              else
                generateGo oracle m w (r + 1) (c + 1) (s ++ [w])).calls ≤ c + (m - r)
        by_cases h503 : code = 503
        · rw [if_pos h503]
          have := ih (r + 1) (c + 1) (s ++ [w * (r + 1)]) (by omega)
          omega
        · rw [if_neg h503]
          by_cases h200 : code = 200
          · rw [if_pos h200]
            show c + 1 ≤ c + (m - r)
            omega
          · rw [if_neg h200]
            have := ih (r + 1) (c + 1) (s ++ [w]) (by omega)
            omega
      | exn msg =>
        show (generateGo oracle m w (r + 1) (c + 1) (s ++ [w])).calls ≤ c + (m - r)
        have := ih (r + 1) (c + 1) (s ++ [w]) (by omega)
        omega
    · rw [generateGo, dif_neg hr]
      show c ≤ c + (m - r)
      omega

/-- C3 (amended): with every poll answering 503 and `max_retries = 5`, the
loop performs exactly 5 HTTP calls (never a 6th) and returns `None`
(exhausted); however the source sleeps after every 503, the fifth included:
`time.sleep` runs before the loop condition is re-checked, so the run sleeps
five times, `w*1, ..., w*5`, the last one immediately before returning. -/
theorem generate_exhausts_after_five_attempts (oracle : Nat → PollResult) (w : Nat)
    (h : ∀ n, oracle n = PollResult.status 503) :
    generate oracle 5 w =
      { calls := 5, sleeps := [w * 1, w * 2, w * 3, w * 4, w * 5], video := false } := by
  rw [generate, generateGo_notReady_run oracle 5 w 5 0 [] (by omega) (fun n _ _ => h n)]
  rw [generateGo, dif_neg (by omega : ¬(0 + 5 < 5))]
  simp [List.range_succ]

/-- Witness for C3 (amended) at the concrete always-503 stub with
`base_wait = 20` (the source's `RETRY_WAIT`). -/
theorem generate_exhausts_after_five_attempts_witness :
    generate constNotReady 5 20 =
      { calls := 5, sleeps := [20, 40, 60, 80, 100], video := false } := by
  simpa using generate_exhausts_after_five_attempts constNotReady 20 (fun n => rfl)

/-- Counterexample to C3 as stated: the claim says that on reaching
`max_attempts` the engine returns immediately with no further sleep, which
would give only 4 sleeps for 5 always-503 attempts.  The code sleeps after
the fifth (final) 503 as well — 5 sleeps, the last of duration
`base_wait * 5 = 100` — before the loop condition fails and `None` is
returned. -/
theorem generate_final_attempt_still_sleeps :
    (generate constNotReady 5 20).calls = 5 ∧
    (generate constNotReady 5 20).sleeps = [20, 40, 60, 80, 100] ∧
    (generate constNotReady 5 20).sleeps.length ≠ 4 := by
  refine ⟨?_, ?_, ?_⟩ <;> simp [generate, generateGo, constNotReady]

/-- C4: if the remote answers 503 exactly `k` times (`k < max_retries`) and
then 200, the loop returns the artifact path after exactly `k + 1` HTTP
calls, having slept exactly `k` times with the strictly increasing
durations `w*1, w*2, ..., w*k`. -/
theorem generate_ready_after_k_not_ready (oracle : Nat → PollResult) (m w k : Nat)
    (hk : k < m) (hw : 0 < w)
    (h503 : ∀ n, n < k → oracle n = PollResult.status 503)
    (h200 : oracle k = PollResult.status 200) :
    generate oracle m w =
      { calls := k + 1, sleeps := (List.range k).map (fun j => w * (j + 1)), video := true }
    ∧ (generate oracle m w).sleeps.Pairwise (· < ·) := by
  have hmain : generate oracle m w =
      { calls := k + 1, sleeps := (List.range k).map (fun j => w * (j + 1)), video := true } := by
    rw [generate, generateGo_notReady_run oracle m w k 0 [] (by omega)
      (fun n _ h2 => h503 n (by omega))]
    simp only [Nat.zero_add, List.nil_append]
    rw [generateGo, dif_pos hk, h200]
    show ({ calls := k + 1, sleeps := (List.range k).map (fun j => w * (1 + j)),
            video := true } : GenResult) = _
    have : (List.range k).map (fun j => w * (1 + j))
        = (List.range k).map (fun j => w * (j + 1)) :=
      List.map_congr_left (fun a _ => congrArg (fun t => w * t) (by omega))
    rw [this]
  refine ⟨hmain, ?_⟩
  rw [hmain]
  exact (List.pairwise_lt_range k).map _
    (fun a b hab => mul_lt_mul_of_pos_left (by omega) hw)

/-- Witness for C4 at `k = 2`, `max_retries = 5`, `base_wait = 20`: three
calls, two sleeps of 20 then 40 seconds, strictly increasing. -/
theorem generate_ready_after_k_not_ready_witness :
    generate (oracleReadyAfter 2) 5 20 = { calls := 3, sleeps := [20, 40], video := true } ∧
    (generate (oracleReadyAfter 2) 5 20).sleeps.Pairwise (· < ·) := by
  have h := generate_ready_after_k_not_ready (oracleReadyAfter 2) 5 20 2 (by omega) (by omega)
    (fun n hn => by simp [oracleReadyAfter, hn]) (by simp [oracleReadyAfter])
  refine ⟨?_, h.2⟩
  simpa [List.range_succ] using h.1

/-- C5: on a poll outcome in the error class — any status other than 503
and 200, or a raised request exception (timeouts included) — with retry
budget remaining, the loop increments the one shared attempt counter,
sleeps the flat `base_wait` (not the growing 503 wait), and retries; and
the total number of HTTP calls of any run is bounded by `max_retries`. -/
theorem generate_failed_outcome_flat_wait (oracle : Nat → PollResult)
    (m w r c : Nat) (s : List Nat)
    (hbudget : r + 1 < m) (hfail : isFailedOutcome (oracle c) = true) :
    generateGo oracle m w r c s = generateGo oracle m w (r + 1) (c + 1) (s ++ [w])
    ∧ (generate oracle m w).calls ≤ m := by
  constructor
  · rw [generateGo, dif_pos (by omega : r < m)]
    cases ho : oracle c with
    | status code =>
      rw [ho] at hfail
      simp only [isFailedOutcome, Bool.and_eq_true, Bool.not_eq_eq_eq_not,
        Bool.not_true, beq_eq_false_iff_ne, ne_eq] at hfail
      show (if code = 503 then
              generateGo oracle m w (r + 1) (c + 1) (s ++ [w * (r + 1)])
            else if code = 200 then
              ({ calls := c + 1, sleeps := s, video := true } : GenResult)
            else
              generateGo oracle m w (r + 1) (c + 1) (s ++ [w]))
          = generateGo oracle m w (r + 1) (c + 1) (s ++ [w])
      rw [if_neg hfail.1, if_neg hfail.2]
    | exn msg =>
      rfl
  · have h := generateGo_calls_le oracle m w m 0 0 [] (by omega)
    simpa [generate] using h

/-- Witness for C5 at a stub answering HTTP 500 forever, from the loop's
initial state with `max_retries = 5`, `base_wait = 20`. -/
theorem generate_failed_outcome_flat_wait_witness :
    generateGo constServerError 5 20 0 0 [] = generateGo constServerError 5 20 1 1 ([] ++ [20])
    ∧ (generate constServerError 5 20).calls ≤ 5 := by
  exact generate_failed_outcome_flat_wait constServerError 5 20 0 0 [] (by omega) (by decide)

/-- One structured idea as produced by `ClaudeClient.generate_ideas`
(src/main.py lines 80-89): the JSON object with its six fields. -/
structure Idea where
  title : String
  description : String
  hook : String
  target_audience : String
  virality_score : Nat
  keywords : List String
deriving DecidableEq, Repr

/-- Terminal stage of one batch item in `run_pipeline`: the `try` body ran
to completion (published), or the `except` handler caught exception `e`
and recorded `str(e)` (failed). -/
inductive Stage where
  | published
  | failed (reason : String)
deriving DecidableEq, Repr

/-- Observable outcome of one iteration of the `for` loop of
`run_pipeline` (src/main.py lines 466-514): the terminal stage, whether a
video file was written by `video_gen.generate`, and whether that file was
removed by the `os.remove` cleanup (lines 499-501). -/
structure ItemResult where
  stage : Stage
  videoCreated : Bool
  videoRemoved : Bool
deriving DecidableEq, Repr

/-- The collaborators one loop iteration calls, as functions of their
inputs: `claude.generate_video_prompt` (may raise), `video_gen.generate`
(returns a path or `None`), and `youtube.upload` (returns `(id, url)` or
raises).  The sheets logger swallows its own exceptions (src/main.py
lines 279-280, 301-302, 319-320) and so never alters control flow. -/
structure Env where
  derivePrompt : Idea → Except String String
  genVideo : String → Option String
  upload : String → Idea → Except String (String × String)

/-- The body of one iteration of the per-idea `for` loop of `run_pipeline`
(src/main.py lines 478-514): derive the prompt, generate the video
(raising `"Video generation returned None"` when `generate` returns
`None`), upload, log, and remove the video file; any exception lands in
the `except` handler, which marks the item failed.  The `except` handler
performs no file cleanup. -/
def processItem (env : Env) (idea : Idea) : ItemResult :=
  match env.derivePrompt idea with
  | Except.error e => { stage := Stage.failed e, videoCreated := false, videoRemoved := false }
  | Except.ok prompt =>
    match env.genVideo prompt with
    | none => { stage := Stage.failed "Video generation returned None",
                videoCreated := false, videoRemoved := false }
    | some path =>
      match env.upload path idea with
      | Except.error e => { stage := Stage.failed e, videoCreated := true, videoRemoved := false }
      | Except.ok _ => { stage := Stage.published, videoCreated := true, videoRemoved := true }

/-- The run statistics dictionary of `run_pipeline` (src/main.py lines
444-449), without the wall-clock start time. -/
structure RunStats where
  total : Nat
  successful : Nat
  failed : Nat
deriving DecidableEq, Repr

/-- Whether the iteration took the success path (`stats["successful"] += 1`)
rather than the `except` path (`stats["failed"] += 1`). -/
def isPublished (r : ItemResult) : Bool :=
  match r.stage with
  | Stage.published => true
  | Stage.failed _ => false

/-- The per-idea `for` loop of `run_pipeline` (src/main.py lines 466-514):
each iteration increments `stats["total"]`, runs the item body, and
increments exactly one of `stats["successful"]` / `stats["failed"]`; the
`except` handler ends in `continue`, so the loop always proceeds to the
next idea. -/
def runBatchAux (env : Env) (stats : RunStats) (acc : List ItemResult) :
    List Idea → RunStats × List ItemResult
  | [] => (stats, acc)
  | idea :: rest =>
    let r := processItem env idea
    runBatchAux env
      { total := stats.total + 1,
        successful := stats.successful + (if isPublished r then 1 else 0),
        failed := stats.failed + (if isPublished r then 0 else 1) }
      (acc ++ [r]) rest

/-- The whole batch phase of `run_pipeline`: stats start at zero and the
loop runs over the ideas in order. -/
def runBatch (env : Env) (ideas : List Idea) : RunStats × List ItemResult :=
  runBatchAux env { total := 0, successful := 0, failed := 0 } [] ideas

/-- How `run_pipeline` ends: either control reaches the final summary block
(src/main.py lines 516-532), or the outer `except` (lines 534-536) catches
an exception and re-raises it, skipping the summary. -/
inductive RunOutcome where
  | summary (stats : RunStats)
  | raised (e : String)
deriving DecidableEq, Repr

/-- Function `run_pipeline` after client initialization (src/main.py lines 451-536):
`claude.generate_ideas` either raises — the outer `except` re-raises and no
summary is printed — or yields the batch, after which the loop and the
summary block run; nothing after idea generation can escape the per-item
handler, so the summary is always reached in that case. -/
def run_pipeline (env : Env) (ideaGen : Except String (List Idea)) : RunOutcome :=
  match ideaGen with
  | Except.error e => RunOutcome.raised e
  | Except.ok ideas => RunOutcome.summary (runBatch env ideas).1

/-- The loop's result list: every supplied idea is processed, in order,
and its outcome is a function of that idea alone. -/
lemma runBatchAux_results (env : Env) :
    ∀ (ideas : List Idea) (stats : RunStats) (acc : List ItemResult),
    (runBatchAux env stats acc ideas).2 = acc ++ ideas.map (processItem env) := by
  intro ideas
  induction ideas with
  | nil => intro stats acc; simp [runBatchAux]
  | cons idea rest ih =>
    intro stats acc
    simp only [runBatchAux, ih, List.map_cons]
    simp

/-- The loop's stats bookkeeping: each iteration adds one to `total` and
one to exactly one of `successful` / `failed`. -/
lemma runBatchAux_stats (env : Env) :
    ∀ (ideas : List Idea) (stats : RunStats) (acc : List ItemResult),
    (runBatchAux env stats acc ideas).1.total = stats.total + ideas.length ∧
    (runBatchAux env stats acc ideas).1.successful + (runBatchAux env stats acc ideas).1.failed
      = stats.successful + stats.failed + ideas.length := by
  intro ideas
  induction ideas with
  | nil => intro stats acc; simp [runBatchAux]
  | cons idea rest ih =>
    intro stats acc
    simp only [runBatchAux, List.length_cons]
    have h12 := ih ⟨stats.total + 1,
        stats.successful + (if isPublished (processItem env idea) then 1 else 0),
        stats.failed + (if isPublished (processItem env idea) then 0 else 1)⟩
      (acc ++ [processItem env idea])
    rw [h12.1, h12.2]
    cases isPublished (processItem env idea) <;> simp <;> omega

/-- C1: in a batch of three ideas where the prompt, generation and upload
stages succeed for ideas 1 and 3 but idea 2's upload raises, the loop
publishes items 1 and 3, fails only item 2 with the upload's reason, does
not abort early (all three results are produced, in order), and counts
`total = 3, successful = 2, failed = 1`. -/
theorem run_pipeline_failure_isolation (env : Env) (i1 i2 i3 : Idea)
    (p1 p2 p3 path1 path2 path3 vid1 url1 vid3 url3 r : String)
    (hd1 : env.derivePrompt i1 = Except.ok p1)
    (hg1 : env.genVideo p1 = some path1)
    (hu1 : env.upload path1 i1 = Except.ok (vid1, url1))
    (hd2 : env.derivePrompt i2 = Except.ok p2)
    (hg2 : env.genVideo p2 = some path2)
    (hu2 : env.upload path2 i2 = Except.error r)
    (hd3 : env.derivePrompt i3 = Except.ok p3)
    (hg3 : env.genVideo p3 = some path3)
    (hu3 : env.upload path3 i3 = Except.ok (vid3, url3)) :
    (runBatch env [i1, i2, i3]).1 = { total := 3, successful := 2, failed := 1 } ∧
    (runBatch env [i1, i2, i3]).2.map ItemResult.stage
      = [Stage.published, Stage.failed r, Stage.published] := by
  have h1 : processItem env i1
      = { stage := Stage.published, videoCreated := true, videoRemoved := true } := by
    simp [processItem, hd1, hg1, hu1]
  have h2 : processItem env i2
      = { stage := Stage.failed r, videoCreated := true, videoRemoved := false } := by
    simp [processItem, hd2, hg2, hu2]
  have h3 : processItem env i3
      = { stage := Stage.published, videoCreated := true, videoRemoved := true } := by
    simp [processItem, hd3, hg3, hu3]
  constructor <;> simp [runBatch, runBatchAux, h1, h2, h3, isPublished]

/-- The three concrete ideas of the failure-isolation scenario. -/
def ideaA : Idea :=
  { title := "A", description := "d", hook := "h", target_audience := "t",
    virality_score := 7, keywords := ["mindset", "growth"] }

/-- Second concrete idea; its upload is the one made to fail. -/
def ideaB : Idea :=
  { title := "B", description := "d", hook := "h", target_audience := "t",
    virality_score := 8, keywords := ["focus"] }

/-- Third concrete idea. -/
def ideaC : Idea :=
  { title := "C", description := "d", hook := "h", target_audience := "t",
    virality_score := 6, keywords := [] }

/-- Collaborator stub where every stage succeeds except the upload of the
idea titled "B", which always raises. -/
def publishFailsOnB : Env :=
  { derivePrompt := fun _ => Except.ok "cinematic prompt",
    genVideo := fun _ => some "video_20240101_000000.mp4",
    upload := fun _ idea =>
      if idea.title = "B" then Except.error "Upload failed"
      else Except.ok ("vid123", "https://youtube.com/watch?v=vid123") }

/-- Witness for C1: the concrete 3-idea batch where only idea B's upload
fails. -/
theorem run_pipeline_failure_isolation_witness :
    (runBatch publishFailsOnB [ideaA, ideaB, ideaC]).1
      = { total := 3, successful := 2, failed := 1 } ∧
    (runBatch publishFailsOnB [ideaA, ideaB, ideaC]).2.map ItemResult.stage
      = [Stage.published, Stage.failed "Upload failed", Stage.published] := by
  exact run_pipeline_failure_isolation publishFailsOnB ideaA ideaB ideaC
    "cinematic prompt" "cinematic prompt" "cinematic prompt"
    "video_20240101_000000.mp4" "video_20240101_000000.mp4" "video_20240101_000000.mp4"
    "vid123" "https://youtube.com/watch?v=vid123"
    "vid123" "https://youtube.com/watch?v=vid123" "Upload failed"
    rfl rfl (by simp [publishFailsOnB, ideaA])
    rfl rfl (by simp [publishFailsOnB, ideaB])
    rfl rfl (by simp [publishFailsOnB, ideaC])

/-- C2: for every environment and every batch, after the loop finishes
`total` equals the number of ideas, and `successful + failed = total`:
each idea contributes one increment to `total` and exactly one increment
to exactly one of `successful` / `failed`. -/
theorem run_pipeline_stats_invariant (env : Env) (ideas : List Idea) :
    (runBatch env ideas).1.total = ideas.length ∧
    (runBatch env ideas).1.successful + (runBatch env ideas).1.failed = ideas.length ∧
    (runBatch env ideas).1.successful + (runBatch env ideas).1.failed
      = (runBatch env ideas).1.total := by
  have h := runBatchAux_stats env ideas { total := 0, successful := 0, failed := 0 } []
  unfold runBatch
  refine ⟨?_, ?_, ?_⟩ <;> simp only [h.1, h.2] <;> simp

/-- Collaborator stub where prompt and video generation succeed but every
upload raises. -/
def publishAlwaysFails : Env :=
  { derivePrompt := fun _ => Except.ok "cinematic prompt",
    genVideo := fun _ => some "video_20240101_000000.mp4",
    upload := fun _ _ => Except.error "Upload failed" }

/-- Counterexample to C6 as stated: with an item that reaches
ArtifactReady (a video file was written) and then fails at the upload
stage, the `except` handler of `run_pipeline` performs no cleanup — the
`os.remove` of lines 499-501 sits only on the success path — so the
generated file is never released.  The claim's "released exactly once on
every terminal transition — whether the item ends Published or Failed" is
false on the Failed transition. -/
theorem artifact_leak_on_publish_failure :
    (processItem publishAlwaysFails ideaA).videoCreated = true ∧
    (processItem publishAlwaysFails ideaA).videoRemoved = false ∧
    (processItem publishAlwaysFails ideaA).stage = Stage.failed "Upload failed" := by
  refine ⟨rfl, rfl, rfl⟩

/-- C6 (amended): the artifact's backing file is removed exactly when the
item ends Published; on a Failed terminal transition — even one reached
after the video file was created — the file is not removed. -/
theorem artifact_release_iff_published (env : Env) (idea : Idea) :
    ((processItem env idea).videoRemoved = true
      ↔ (processItem env idea).stage = Stage.published) := by
  cases hd : env.derivePrompt idea with
  | error e => simp [processItem, hd]
  | ok prompt =>
    cases hg : env.genVideo prompt with
    | none => simp [processItem, hd, hg]
    | some path =>
      cases hu : env.upload path idea with
      | error e => simp [processItem, hd, hg, hu]
      | ok v => simp [processItem, hd, hg, hu]

/-- Counterexample to C7 as stated: when `claude.generate_ideas` raises,
the outer `except` of `run_pipeline` (src/main.py lines 534-536) re-raises
the exception; control never reaches the summary block, so the run does
not terminate with a RunStats summary. -/
theorem run_pipeline_idea_failure_no_summary :
    run_pipeline publishFailsOnB (Except.error "Error generating ideas")
      = RunOutcome.raised "Error generating ideas" := rfl

/-- C7 (amended): whenever idea generation succeeds, `run_pipeline`
terminates with the RunStats summary, and a run with zero successes is
still this normal summary outcome, with coherent stats
(`successful + failed = total`); but when the IdeaSource raises, the
exception is re-raised unsummarized. -/
theorem run_pipeline_summary_when_ideas_ok (env : Env) (ideas : List Idea) :
    run_pipeline env (Except.ok ideas) = RunOutcome.summary (runBatch env ideas).1 ∧
    (runBatch env ideas).1.successful + (runBatch env ideas).1.failed
      = (runBatch env ideas).1.total := by
  have h := runBatchAux_stats env ideas { total := 0, successful := 0, failed := 0 } []
  exact ⟨rfl, by unfold runBatch; rw [h.1, h.2]; simp⟩

/-- Collaborator stub whose prompt stage always raises with message
"cancelled" — the closest the code can come to an in-flight item being
marked Failed with reason "cancelled". -/
def deriveAlwaysCancelled : Env :=
  { derivePrompt := fun _ => Except.error "cancelled",
    genVideo := fun _ => some "video_20240101_000000.mp4",
    upload := fun _ _ => Except.ok ("vid123", "https://youtube.com/watch?v=vid123") }

/-- Counterexample to C8 as stated: even when the very first item is
marked Failed with reason "cancelled", the run does not return
immediately — the remaining two ideas are still attempted and `total`
counts all three.  There is no cancellation signal anywhere in the
source: neither the retry loop of `VideoGenerator.generate` nor the
per-item loop of `run_pipeline` checks one. -/
theorem run_batch_continues_after_cancelled_failure :
    (runBatch deriveAlwaysCancelled [ideaA, ideaB, ideaC]).1
      = { total := 3, successful := 0, failed := 3 } ∧
    (runBatch deriveAlwaysCancelled [ideaA, ideaB, ideaC]).2.map ItemResult.stage
      = [Stage.failed "cancelled", Stage.failed "cancelled", Stage.failed "cancelled"] := by
  refine ⟨rfl, rfl⟩

/-- C8 (amended): the code supports no cooperative cancellation; the batch
loop unconditionally attempts every supplied idea in order, producing one
result per idea, and `total` always equals the batch size. -/
theorem run_batch_attempts_every_idea (env : Env) (ideas : List Idea) :
    (runBatch env ideas).2 = ideas.map (processItem env) ∧
    (runBatch env ideas).1.total = ideas.length := by
  have hr := runBatchAux_results env ideas { total := 0, successful := 0, failed := 0 } []
  have hs := runBatchAux_stats env ideas { total := 0, successful := 0, failed := 0 } []
  unfold runBatch
  exact ⟨by simpa using hr, by rw [hs.1]; simp⟩

/-- The request body metadata built by `YouTubeUploader.upload`
(src/main.py lines 342-374): title, description and tags of the
`snippet`. -/
structure UploadBody where
  title : String
  description : String
  tags : List String
deriving DecidableEq, Repr

/-- The hashtag list of `YouTubeUploader.upload` (src/main.py line 348):
one `#`-prefixed, space-stripped tag per keyword, first five keywords
only. -/
def upload_keyword_tags (idea : Idea) : List String :=
  (idea.keywords.take 5).map (fun kw => "#" ++ kw.replace " " "")

/-- The description string of `YouTubeUploader.upload` (src/main.py lines
350-356). -/
def upload_description (idea : Idea) : String :=
  idea.description ++ "\n\n🔥 " ++ idea.hook ++ "\n\n"
    ++ String.intercalate " " (upload_keyword_tags idea)
    ++ "\n\n#motivation #success #mindset #shorts #viral #selfimprovement"

/-- The tags list of `YouTubeUploader.upload` (src/main.py lines 359-366):
six fixed tags, then the space-stripped first five keywords, the whole
list cut to the first 15 entries. -/
def upload_tags (idea : Idea) : List String :=
  (["motivation", "success", "mindset", "shorts", "viral", "selfimprovement"]
    ++ (idea.keywords.take 5).map (fun kw => kw.replace " " "")).take 15

/-- The `snippet` metadata of `YouTubeUploader.upload`: the title is
`idea["title"][:100]` (src/main.py line 345). -/
def upload_body (idea : Idea) : UploadBody :=
  { title := idea.title.take 100,
    description := upload_description idea,
    tags := upload_tags idea }

/-- C9: `YouTubeUploader.upload` truncates at the publishing boundary:
for every idea, the published title is the first 100 characters of
`idea["title"]` (so its length never exceeds 100), at most 15 tags are
sent, and the hashtags come from at most the first five keywords (so at
most five keyword hashtags); no validation of the Idea's stated
title-length limit happens anywhere. -/
theorem upload_truncates_metadata (idea : Idea) :
    (upload_body idea).title = idea.title.take 100 ∧
    (upload_body idea).title.length ≤ 100 ∧
    (upload_body idea).tags.length ≤ 15 ∧
    upload_keyword_tags idea
      = (idea.keywords.take 5).map (fun kw => "#" ++ kw.replace " " "") ∧
    (upload_keyword_tags idea).length ≤ 5 := by
  have htitle : (upload_body idea).title = idea.title.take 100 := by simp [upload_body]
  have htags : (upload_body idea).tags = upload_tags idea := by simp [upload_body]
  refine ⟨htitle, ?_, ?_, ?_, ?_⟩
  · rw [htitle, String.take_eq]
    show (idea.title.data.take 100).length ≤ 100
    simp
  · rw [htags, upload_tags]
    exact List.length_take_le 15 _
  · rw [upload_keyword_tags]
  · rw [upload_keyword_tags, List.length_map]
    exact List.length_take_le 5 _

/-- The row `SheetsLogger.log_error` appends to the Errors_Log sheet
(src/main.py lines 311-316): timestamp, the idea's title, `str(error)[:500]`,
and the hard-coded stage cell `"video_generation"`.  The function takes no
stage argument: `run_pipeline` calls it from the single per-item `except`
handler whatever stage raised. -/
def log_error_row (ts : String) (idea : Idea) (error : String) : List String :=
  [ts, idea.title, error.take 500, "video_generation"]

/-- C10: every error row carries the fixed stage label "video_generation" —
the row builder has no stage input, so the label is the same whichever
stage (prompt derivation, generation, or publishing) produced the error —
and the logged error text is `error[:500]`, hence at most 500 characters. -/
theorem log_error_fixed_stage (ts : String) (idea : Idea) (error : String) :
    (log_error_row ts idea error)[3]? = some "video_generation" ∧
    (log_error_row ts idea error)[2]? = some (error.take 500) ∧
    (error.take 500).length ≤ 500 := by
  refine ⟨?_, ?_, ?_⟩
  · simp [log_error_row]
  · simp [log_error_row]
  · rw [String.take_eq]
    show (error.data.take 500).length ≤ 500
    simp
